import Mathlib

/-!
Verification of `ikarennina/twitter_crawler`.

The repository contains two variants of the crawler:
  * `src/crawler/crawler.py` — the package variant: `User.__init__` snapshots the
    user record once, stores a `protected` flag, and the three list accessors
    (`get_followers`, `get_followees`, `get_tweets`) are gated on that flag;
  * `src/crawler.py` — the flat variant: `User` stores only `user_id` and `api`,
    `get_profile_info` re-fetches the user record on every call, and the list
    accessors perform no visibility check.
`src/crawler/main.py` is the presenter for the package variant.

Pagination itself is delegated to the external `tweepy.Cursor(...).items(limit)`
collaborator, which is not part of the repository; it is modelled from the
spec (§4.3 Paginator) as `collect` below.  Everything else is embedded directly
from the Python source.  Remote calls are modelled by passing the collaborator's
responses (an `Api` record, or a list of page responses) as explicit arguments,
and each operation additionally returns the number of remote requests it issued.
-/

/-- Python exception outcomes that the embedded code can produce. -/
inductive PyErr where
  | attributeError
  | transportError
  | userNotFound
  | typeError
  deriving DecidableEq, Repr

/-- A tweepy `Status` object; only its `text` attribute is read by the source. -/
structure Status where
  text : String
  deriving DecidableEq, Repr

/-- A dynamically typed attribute value of a tweepy user object. -/
inductive Value where
  | nat (n : Nat)
  | str (s : String)
  | bool (b : Bool)
  | status (st : Status)
  deriving DecidableEq, Repr

/-- The user record returned by the remote `api.get_user` call.  The named
fields are the attributes the source reads; `status` is optional because a
tweepy user object for an account that has never posted carries no `status`
attribute; `extra` holds any further attributes (for `hasattr`/`getattr`). -/
structure UserRecord where
  id : Nat
  screen_name : String
  name : String
  location : String
  followers_count : Nat
  is_protected : Bool
  status : Option Status
  extra : List (String × Value)
  deriving DecidableEq, Repr

/-- `getattr`/`hasattr` on a user record: the fixed attributes first, then the
`extra` association list.  `hasattr u a` is `(attrValue u a).isSome`. -/
def attrValue (u : UserRecord) (a : String) : Option Value :=
  if a = "id" then some (.nat u.id)
  else if a = "screen_name" then some (.str u.screen_name)
  else if a = "name" then some (.str u.name)
  else if a = "location" then some (.str u.location)
  else if a = "followers_count" then some (.nat u.followers_count)
  else if a = "protected" then some (.bool u.is_protected)
  else if a = "status" then u.status.map .status
  else u.extra.lookup a

/-- A Python `OrderedDict` as an association list in insertion order. -/
abbrev OD := List (String × Value)

/-- `d[k] = v` on an `OrderedDict`: an existing key keeps its position and has
its value replaced; a new key is appended at the end. -/
def odInsert : OD → String → Value → OD
  | [], k, v => [(k, v)]
  | (k', v') :: t, k, v =>
      if k' = k then (k', v) :: t else (k', v') :: odInsert t k v

/-- The keys of an `OrderedDict`, in insertion order. -/
def odKeys (d : OD) : List String := d.map Prod.fst

/-- Lookup of a key's value in an `OrderedDict`. -/
def odLookup : OD → String → Option Value
  | [], _ => none
  | (k', v) :: t, k => if k' = k then some v else odLookup t k

/-- The five unconditional inserts at the top of `get_profile_info`
(both variants, `src/crawler/crawler.py:117-121` and `src/crawler.py:110-114`). -/
def profileBase (u : UserRecord) : OD :=
  odInsert (odInsert (odInsert (odInsert (odInsert []
    "id" (.nat u.id))
    "screen_name" (.str u.screen_name))
    "name" (.str u.name))
    "location" (.str u.location))
    "followers_count" (.nat u.followers_count)

/-- The `for requested_info in args` loop of `get_profile_info` (both variants):
a present attribute is inserted into the dict, an absent one appends a warning
(we record the warned names, in order). -/
def processArgs (u : UserRecord) : List String → OD → List String → OD × List String
  | [], d, w => (d, w)
  | a :: rest, d, w =>
      match attrValue u a with
      | some v => processArgs u rest (odInsert d a v) w
      | none => processArgs u rest d (w ++ [a])

/-- The remote API handle (`tweepy.API`), reduced to the one operation the
embedded code calls on it directly: `get_user`. -/
structure Api where
  get_user : String → Except PyErr UserRecord

/-- The package variant's `User` object (`src/crawler/crawler.py:66-76`):
`user_id`, the snapshotted record `user`, the api handle, and the copied
`protected` flag. -/
structure PUser where
  user_id : String
  user : UserRecord
  api : Api
  is_protected : Bool

/-- `User.__init__` of the package variant applied to the record the remote
returned: copies the record and its `protected` attribute. -/
def User_init (user_id : String) (api : Api) (rec : UserRecord) : PUser :=
  ⟨user_id, rec, api, rec.is_protected⟩

/-- `User.get_profile_info` of the package variant
(`src/crawler/crawler.py:116-131`).  Returns the dict and the warned names,
paired with the number of remote requests issued (none: the body reads only
`self.user` and `self.protected`).  When the account is not protected the
source reads `self.user.status.text` unconditionally, which raises
`AttributeError` if the snapshot carries no `status` attribute. -/
def pkg_get_profile_info (p : PUser) (args : List String) :
    Except PyErr (OD × List String) × Nat :=
  if p.is_protected then
    (.ok (processArgs p.user args (profileBase p.user) []), 0)
  else
    match p.user.status with
    | some st =>
        (.ok (processArgs p.user args
          (odInsert (profileBase p.user) "status" (.str st.text)) []), 0)
    | none => (.error .attributeError, 0)

/-- `User.get_profile_info` of the flat variant (`src/crawler.py:108-123`):
fetches the user record afresh (one remote request per call) and inserts
`status` unconditionally — there is no `protected` gate in this variant. -/
def flat_get_profile_info (api : Api) (user_id : String) (args : List String) :
    Except PyErr (OD × List String) × Nat :=
  match api.get_user user_id with
  | .error e => (.error e, 1)
  | .ok u =>
      match u.status with
      | some st =>
          (.ok (processArgs u args
            (odInsert (profileBase u) "status" (.str st.text)) []), 1)
      | none => (.error .attributeError, 1)

-- Sample data for concrete evaluations.

/-- A public account with a most recent post. -/
def sampleRec : UserRecord :=
  ⟨1, "alice", "Alice", "Wonderland", 2, false, some ⟨"hello"⟩, [("verified", .bool true)]⟩

/-- A public account that has never posted: no `status` attribute. -/
def noStatusRec : UserRecord :=
  ⟨2, "bob", "Bob", "Here", 0, false, none, []⟩

/-- A protected account. -/
def protectedRec : UserRecord :=
  ⟨3, "carol", "Carol", "There", 5, true, some ⟨"secret"⟩, []⟩

/-- A remote that resolves every identifier to `sampleRec`. -/
def apiSample : Api := ⟨fun _ => .ok sampleRec⟩

/-- A remote on which every request fails with a transport error. -/
def apiDown : Api := ⟨fun _ => .error .transportError⟩

/-- Modelled from the spec: the Paginator (§4.3) is realised in the repository
by the external `tweepy.Cursor(...).items(limit)` collaborator, whose code is
not under `src/`.  A paginated source is a list of page responses, each either
one page of items or a transport failure.  `collect` accumulates pages until
the limit is reached (truncating the final page) or the source is exhausted;
`limit = 0` issues no request; a failing page aborts the whole collection with
the error, discarding items from earlier pages.  The second component counts
the page-fetch requests issued. -/
def collect {α : Type} : List (Except PyErr (List α)) → Nat → Except PyErr (List α) × Nat
  | _, 0 => (.ok [], 0)
  | [], _ + 1 => (.ok [], 0)
  | .error e :: _, _ + 1 => (.error e, 1)
  | .ok p :: ps, n + 1 =>
      if n + 1 ≤ p.length then (.ok (p.take (n + 1)), 1)
      else ((collect ps (n + 1 - p.length)).1.map (fun r => p ++ r),
            (collect ps (n + 1 - p.length)).2 + 1)

/-- A user object yielded by the followers/followees cursors: only its
`screen_name` attribute is read by the source. -/
structure Follower where
  screen_name : String
  deriving DecidableEq, Repr

/-- A tweet object yielded by the timeline cursor: only `text` is read. -/
structure Tweet where
  text : String
  deriving DecidableEq, Repr

/-- `User.get_followers` of the package variant (`src/crawler/crawler.py:133-150`):
returns `None` without touching the cursor when the account is protected,
otherwise collects up to `limit` follower screen names from the paginated
source `src` (the followers endpoint's responses). -/
def pkg_get_followers (p : PUser) (src : List (Except PyErr (List Follower)))
    (limit : Nat) : Except PyErr (Option (List String)) × Nat :=
  if p.is_protected then (.ok none, 0)
  else ((collect src limit).1.map (fun l => some (l.map Follower.screen_name)),
        (collect src limit).2)

/-- `User.get_followees` of the package variant (`src/crawler/crawler.py:152-170`):
identical gating, against the followees endpoint. -/
def pkg_get_followees (p : PUser) (src : List (Except PyErr (List Follower)))
    (limit : Nat) : Except PyErr (Option (List String)) × Nat :=
  if p.is_protected then (.ok none, 0)
  else ((collect src limit).1.map (fun l => some (l.map Follower.screen_name)),
        (collect src limit).2)

/-- `User.get_tweets` of the package variant (`src/crawler/crawler.py:172-189`):
identical gating, against the timeline endpoint, collecting tweet texts. -/
def pkg_get_tweets (p : PUser) (src : List (Except PyErr (List Tweet)))
    (limit : Nat) : Except PyErr (Option (List String)) × Nat :=
  if p.is_protected then (.ok none, 0)
  else ((collect src limit).1.map (fun l => some (l.map Tweet.text)),
        (collect src limit).2)

/-- `User.get_followers` of the flat variant (`src/crawler.py:125-136`): no
visibility check at all — it goes straight to the cursor.  The `Option` layer
of the shared return type records that this variant only ever returns a list,
never `None`. -/
def flat_get_followers (src : List (Except PyErr (List Follower)))
    (limit : Nat) : Except PyErr (Option (List String)) × Nat :=
  ((collect src limit).1.map (fun l => some (l.map Follower.screen_name)),
   (collect src limit).2)

/-- `User.get_followees` of the flat variant (`src/crawler.py:138-149`). -/
def flat_get_followees (src : List (Except PyErr (List Follower)))
    (limit : Nat) : Except PyErr (Option (List String)) × Nat :=
  ((collect src limit).1.map (fun l => some (l.map Follower.screen_name)),
   (collect src limit).2)

/-- `User.get_tweets` of the flat variant (`src/crawler.py:151-162`). -/
def flat_get_tweets (src : List (Except PyErr (List Tweet)))
    (limit : Nat) : Except PyErr (Option (List String)) × Nat :=
  ((collect src limit).1.map (fun l => some (l.map Tweet.text)),
   (collect src limit).2)

/-- The `Crawler` object (`src/crawler/crawler.py:16-53`): the four credential
strings and the api handle, which is `None` until `connect` is called. -/
structure Crawler where
  consumer_key : String
  consumer_secret : String
  access_token : String
  access_token_secret : String
  api : Option Api

/-- `Crawler.connect` (`src/crawler/crawler.py:38-45`): builds the api handle
from the credentials and returns `verify_credentials()`.  The handle the
collaborator constructs and the verification outcome it reports are supplied
as arguments.  Note the handle is stored unconditionally, before (and
regardless of) the verification result. -/
def Crawler.connect (c : Crawler) (handle : Api) (verified : Bool) :
    Crawler × Bool :=
  ({ c with api := some handle }, verified)

/-- `Crawler.get_user` (`src/crawler/crawler.py:47-53`) followed by
`User.__init__` (`src/crawler/crawler.py:66-76`): with an unset handle,
`api.get_user(user_id)` is an attribute access on `None` and raises
`AttributeError` before any request; otherwise one identity request is issued
and a `User` is built from the returned record. -/
def Crawler.get_user (c : Crawler) (user_id : String) :
    Except PyErr PUser × Nat :=
  match c.api with
  | none => (.error .attributeError, 0)
  | some api =>
      match api.get_user user_id with
      | .ok rec => (.ok (User_init user_id api rec), 1)
      | .error e => (.error e, 1)

/-- A `Crawler` as constructed by `Crawler.__init__`: handle not yet set. -/
def crawler0 : Crawler := ⟨"ck", "cs", "at", "ats", none⟩

/-- Python truthiness of an accessor result: `not None` and `not []` are both
true; only a nonempty list is truthy. -/
def falsy : Option (List String) → Bool
  | none => true
  | some l => l.isEmpty

/-- One list section of `print_info` (`src/crawler/main.py:14-37`): the source
tests `if not gate:` and prints the private-account message, else iterates
`body` printing each item (iterating `None` would raise `TypeError`).  For the
followers and followees sections `gate` and `body` are the same variable; for
the tweets section the source tests `followers` but iterates `tweets`. -/
def renderSection (gate body : Option (List String)) (msg : String) :
    Except PyErr (List String) :=
  if falsy gate then .ok [msg]
  else
    match body with
    | some l => .ok l
    | none => .error .typeError

/-- The three list sections of `print_info` (`src/crawler/main.py:14-37`),
given the values the three accessors returned.  The tweets section's guard
reads the `followers` variable, exactly as on line 33 of the source. -/
def print_info_sections (followers followees tweets : Option (List String)) :
    Except PyErr (List String) × Except PyErr (List String) ×
      Except PyErr (List String) :=
  (renderSection followers followers
     "Account is private and followers cannot be crawled.",
   renderSection followees followees
     "Account is private and followed accounts cannot be crawled.",
   renderSection followers tweets
     "Account is private and tweets cannot be crawled.")

/-- A sequence of `get_profile_info` calls on the same package-variant `User`:
the list of results and the total number of remote requests issued. -/
def pkg_gpi_callSeq (p : PUser) : List (List String) →
    List (Except PyErr (OD × List String)) × Nat
  | [] => ([], 0)
  | args :: rest =>
      ((pkg_get_profile_info p args).1 :: (pkg_gpi_callSeq p rest).1,
       (pkg_get_profile_info p args).2 + (pkg_gpi_callSeq p rest).2)

/-- The default keys of the profile dict, as a function of the protected flag. -/
def defaultKeys (prot : Bool) : List String :=
  ["id", "screen_name", "name", "location", "followers_count"] ++
    if prot then [] else ["status"]

/-- The requested extra fields that actually get appended as new keys: those
present on the snapshot and not already among the keys inserted so far
(`ks` accumulates the keys). -/
def freshExtras (u : UserRecord) : List String → List String → List String
  | _, [] => []
  | ks, a :: rest =>
      if (attrValue u a).isSome then
        if a ∈ ks then freshExtras u ks rest
        else a :: freshExtras u (ks ++ [a]) rest
      else freshExtras u ks rest

/-- The requested extra fields absent from the snapshot (each is warned). -/
def absentArgs (u : UserRecord) (args : List String) : List String :=
  args.filter (fun a => (attrValue u a).isNone)

/-- The key order exactly as the claim words it: the defaults, then every
requested extra field present on the snapshot, appended in caller order.
(Stated from the claim, for comparison with the embedded code.) -/
def claimed_key_order (u : UserRecord) (prot : Bool) (args : List String) :
    List String :=
  defaultKeys prot ++ args.filter (fun a => (attrValue u a).isSome)

/-- The value a `get_profile_info` result associates with the key `"status"`
(`none` when the call failed or the key is absent). -/
def statusEntry (r : Except PyErr (OD × List String) × Nat) : Option Value :=
  match r.1 with
  | .ok (d, _) => odLookup d "status"
  | .error _ => none

/-- The key sequence of a `get_profile_info` result (empty on failure). -/
def gpiKeys (r : Except PyErr (OD × List String) × Nat) : List String :=
  match r.1 with
  | .ok (d, _) => odKeys d
  | .error _ => []

-- Lemmas about the `OrderedDict` operations.

theorem odLookup_odInsert_self (d : OD) (k : String) (v : Value) :
    odLookup (odInsert d k v) k = some v := by
  induction d with
  | nil => simp [odInsert, odLookup]
  | cons hd t ih =>
      obtain ⟨k', v'⟩ := hd
      by_cases h : k' = k
      · simp [odInsert, odLookup, h]
      · simp [odInsert, odLookup, h, ih]

theorem odLookup_odInsert_ne (d : OD) (k : String) (v : Value) (k' : String)
    (h : k ≠ k') : odLookup (odInsert d k v) k' = odLookup d k' := by
  induction d with
  | nil => simp [odInsert, odLookup, h]
  | cons hd t ih =>
      obtain ⟨k'', v''⟩ := hd
      by_cases h2 : k'' = k
      · subst h2
        simp [odInsert, odLookup, h]
      · simp [odInsert, odLookup, h2, ih]

theorem odKeys_nil : odKeys [] = [] := rfl

theorem odKeys_cons (k : String) (v : Value) (t : OD) :
    odKeys ((k, v) :: t) = k :: odKeys t := rfl

theorem odKeys_odInsert (d : OD) (k : String) (v : Value) :
    odKeys (odInsert d k v) =
      if k ∈ odKeys d then odKeys d else odKeys d ++ [k] := by
  induction d with
  | nil => simp [odInsert, odKeys_nil, odKeys_cons]
  | cons hd t ih =>
      obtain ⟨k', v'⟩ := hd
      by_cases h : k' = k
      · subst h
        simp [odInsert, odKeys_cons]
      · have hkk' : ¬(k = k') := fun hk => h hk.symm
        have hstep : odInsert ((k', v') :: t) k v = (k', v') :: odInsert t k v := by
          simp [odInsert, h]
        rw [hstep, odKeys_cons, odKeys_cons, ih]
        by_cases hm : k ∈ odKeys t
        · simp [hm, hkk']
        · simp [hm, hkk']

-- Lemmas about the extra-fields loop.

theorem processArgs_spec (u : UserRecord) (args : List String) :
    ∀ (d : OD) (w : List String),
      odKeys (processArgs u args d w).1 = odKeys d ++ freshExtras u (odKeys d) args
      ∧ (processArgs u args d w).2 = w ++ absentArgs u args := by
  induction args with
  | nil => intro d w; simp [processArgs, freshExtras, absentArgs]
  | cons a rest ih =>
      intro d w
      cases h : attrValue u a with
      | none =>
          have := ih d (w ++ [a])
          constructor
          · simpa [processArgs, h, freshExtras] using this.1
          · simpa [processArgs, h, absentArgs, List.filter_cons] using this.2
      | some v =>
          have := ih (odInsert d a v) w
          have hkeys := odKeys_odInsert d a v
          by_cases hm : a ∈ odKeys d
          · rw [if_pos hm] at hkeys
            constructor
            · simpa [processArgs, h, freshExtras, hm, hkeys] using this.1
            · simpa [processArgs, h, absentArgs, List.filter_cons] using this.2
          · rw [if_neg hm] at hkeys
            constructor
            · have h1 := this.1
              rw [hkeys] at h1
              simp [processArgs, h, freshExtras, hm, h1]
            · simpa [processArgs, h, absentArgs, List.filter_cons] using this.2

theorem processArgs_lookup_preserve (u : UserRecord) (k : String) (v : Value)
    (hv : attrValue u k = some v) (args : List String) :
    ∀ (d : OD) (w : List String), odLookup d k = some v →
      odLookup (processArgs u args d w).1 k = some v := by
  induction args with
  | nil => intro d w hd; simpa [processArgs] using hd
  | cons a rest ih =>
      intro d w hd
      cases h : attrValue u a with
      | none =>
          simp only [processArgs, h]
          exact ih d (w ++ [a]) hd
      | some v' =>
          simp only [processArgs, h]
          by_cases hak : a = k
          · subst hak
            rw [h] at hv
            obtain rfl : v' = v := Option.some_inj.mp hv
            exact ih (odInsert d a v') w (odLookup_odInsert_self d a v')
          · have hd' : odLookup (odInsert d a v') k = some v := by
              rw [odLookup_odInsert_ne d a v' k hak]; exact hd
            exact ih (odInsert d a v') w hd'

theorem processArgs_lookup_mem (u : UserRecord) (k : String) (v : Value)
    (hv : attrValue u k = some v) (args : List String) :
    ∀ (d : OD) (w : List String), k ∈ args →
      odLookup (processArgs u args d w).1 k = some v := by
  induction args with
  | nil => intro d w hk; cases hk
  | cons a rest ih =>
      intro d w hk
      by_cases hak : a = k
      · subst hak
        have hstep : odLookup (odInsert d a v) a = some v :=
          odLookup_odInsert_self d a v
        simpa [processArgs, hv] using
          processArgs_lookup_preserve u a v hv rest (odInsert d a v) w hstep
      · have hk' : k ∈ rest := by
          cases hk with
          | head => exact absurd rfl hak
          | tail _ h => exact h
        cases h : attrValue u a with
        | none => simpa [processArgs, h] using ih d (w ++ [a]) hk'
        | some v' => simpa [processArgs, h] using ih (odInsert d a v') w hk'

-- The base dict has exactly the five default keys, then `status` if appended.

theorem odKeys_profileBase (u : UserRecord) :
    odKeys (profileBase u) =
      ["id", "screen_name", "name", "location", "followers_count"] := rfl

theorem odKeys_profileBase_status (u : UserRecord) (v : Value) :
    odKeys (odInsert (profileBase u) "status" v) =
      ["id", "screen_name", "name", "location", "followers_count", "status"] := rfl

-- Lemmas about the spec-modelled Paginator.

theorem collect_ok_fst {α : Type} (pages : List (List α)) :
    ∀ limit : Nat,
      (collect (pages.map .ok) limit).1 = .ok (pages.flatten.take limit) := by
  induction pages with
  | nil => intro limit; cases limit <;> simp [collect]
  | cons p ps ih =>
      intro limit
      cases limit with
      | zero => simp [collect]
      | succ n =>
          by_cases h : n + 1 ≤ p.length
          · simp only [List.map_cons, collect, if_pos h, List.flatten_cons]
            rw [List.take_append_of_le_length h]
          · simp only [List.map_cons, collect, if_neg h, List.flatten_cons]
            rw [ih (n + 1 - p.length)]
            have hlen : p.length ≤ n + 1 := Nat.le_of_lt (Nat.lt_of_not_le h)
            rw [List.take_append_eq_append_take, List.take_of_length_le hlen]
            rfl

theorem collect_ok_count {α : Type} (pages : List (List α)) :
    ∀ (limit k : Nat), limit ≤ ((pages.take k).flatten).length →
      (collect (pages.map .ok) limit).2 ≤ k := by
  induction pages with
  | nil => intro limit k _; cases limit <;> simp [collect]
  | cons p ps ih =>
      intro limit k hk
      cases limit with
      | zero => simp [collect]
      | succ n =>
          cases k with
          | zero => simp at hk
          | succ k' =>
              simp only [List.take_succ_cons, List.flatten_cons,
                List.length_append] at hk
              by_cases h : n + 1 ≤ p.length
              · simp only [List.map_cons, collect, if_pos h]
                exact Nat.succ_le_succ (Nat.zero_le k')
              · simp only [List.map_cons, collect, if_neg h]
                have : n + 1 - p.length ≤ ((ps.take k').flatten).length := by
                  omega
                exact Nat.succ_le_succ (ih (n + 1 - p.length) k' this)

theorem collect_reaches_error {α : Type} (ps : List (List α)) :
    ∀ (e : PyErr) (rest : List (Except PyErr (List α))) (limit : Nat),
      ps.flatten.length < limit →
      (collect (ps.map .ok ++ .error e :: rest) limit).1 = .error e := by
  induction ps with
  | nil =>
      intro e rest limit hlt
      cases limit with
      | zero => simp at hlt
      | succ n => simp [collect]
  | cons p ps' ih =>
      intro e rest limit hlt
      simp only [List.flatten_cons, List.length_append] at hlt
      cases limit with
      | zero => simp at hlt
      | succ n =>
          have h : ¬(n + 1 ≤ p.length) := by omega
          have hrec := ih e rest (n + 1 - p.length) (by omega)
          simp only [List.map_cons, List.cons_append, collect, if_neg h,
            List.append_eq]
          rw [hrec]
          rfl

-- Shared helper: the first component of an ungated accessor on an all-ok source.

theorem accessor_ok_fst {α : Type} (f : α → String) (pages : List (List α))
    (limit : Nat) :
    ((collect (pages.map .ok) limit).1.map (fun l => some (l.map f)))
      = .ok (some ((pages.flatten.map f).take limit)) := by
  rw [collect_ok_fst]
  simp [Except.map, List.map_take]

/-- Claim C1: for every limit and a paginated source holding pages of items,
`get_followers`, `get_followees` and `get_tweets` (package variant, on a
public account) return exactly the first `limit` of the joined pages in
server-returned order — hence `min(limit, N)` items — issue at most `k` page
fetches whenever the first `k` pages already hold `limit` items, and with
`limit = 0` return an empty sequence having issued zero page fetches. -/
theorem pagination_min_limit (p : PUser) (hp : p.is_protected = false)
    (upages : List (List Follower)) (tpages : List (List Tweet))
    (limit k : Nat) :
    (pkg_get_followers p (upages.map .ok) limit).1
        = .ok (some ((upages.flatten.map Follower.screen_name).take limit))
    ∧ (pkg_get_followees p (upages.map .ok) limit).1
        = .ok (some ((upages.flatten.map Follower.screen_name).take limit))
    ∧ (pkg_get_tweets p (tpages.map .ok) limit).1
        = .ok (some ((tpages.flatten.map Tweet.text).take limit))
    ∧ ((upages.flatten.map Follower.screen_name).take limit).length
        = min limit upages.flatten.length
    ∧ (limit ≤ ((upages.take k).flatten).length →
        (pkg_get_followers p (upages.map .ok) limit).2 ≤ k)
    ∧ pkg_get_followers p (upages.map .ok) 0 = (.ok (some []), 0)
    ∧ pkg_get_tweets p (tpages.map .ok) 0 = (.ok (some []), 0) := by
  refine ⟨?_, ?_, ?_, ?_, ?_, ?_, ?_⟩
  · simp only [pkg_get_followers, hp, Bool.false_eq_true, if_false]
    exact accessor_ok_fst _ _ _
  · simp only [pkg_get_followees, hp, Bool.false_eq_true, if_false]
    exact accessor_ok_fst _ _ _
  · simp only [pkg_get_tweets, hp, Bool.false_eq_true, if_false]
    exact accessor_ok_fst _ _ _
  · rw [List.length_take, List.length_map]
  · intro hk
    simp only [pkg_get_followers, hp, Bool.false_eq_true, if_false]
    exact collect_ok_count upages limit k hk
  · simp [pkg_get_followers, hp, collect, Except.map]
  · simp [pkg_get_tweets, hp, collect, Except.map]

/-- Claim C1 witness: a public account, two follower pages (2 then 1 items),
`limit = 2`: the first two followers are returned and one page suffices. -/
theorem pagination_min_limit_witness :
    (pkg_get_followers (User_init "alice" apiSample sampleRec)
        ([[⟨"f1"⟩, ⟨"f2"⟩], [⟨"f3"⟩]].map .ok) 2).1
        = .ok (some (([[(⟨"f1"⟩ : Follower), ⟨"f2"⟩], [⟨"f3"⟩]].flatten.map
            Follower.screen_name).take 2))
    ∧ (pkg_get_followees (User_init "alice" apiSample sampleRec)
        ([[⟨"f1"⟩, ⟨"f2"⟩], [⟨"f3"⟩]].map .ok) 2).1
        = .ok (some (([[(⟨"f1"⟩ : Follower), ⟨"f2"⟩], [⟨"f3"⟩]].flatten.map
            Follower.screen_name).take 2))
    ∧ (pkg_get_tweets (User_init "alice" apiSample sampleRec)
        ([[⟨"t1"⟩]].map .ok) 2).1
        = .ok (some (([[(⟨"t1"⟩ : Tweet)]].flatten.map Tweet.text).take 2))
    ∧ (([[(⟨"f1"⟩ : Follower), ⟨"f2"⟩], [⟨"f3"⟩]].flatten.map
          Follower.screen_name).take 2).length
        = min 2 [[(⟨"f1"⟩ : Follower), ⟨"f2"⟩], [⟨"f3"⟩]].flatten.length
    ∧ (2 ≤ (([[(⟨"f1"⟩ : Follower), ⟨"f2"⟩], [⟨"f3"⟩]].take 1).flatten).length →
        (pkg_get_followers (User_init "alice" apiSample sampleRec)
          ([[⟨"f1"⟩, ⟨"f2"⟩], [⟨"f3"⟩]].map .ok) 2).2 ≤ 1)
    ∧ pkg_get_followers (User_init "alice" apiSample sampleRec)
          ([[⟨"f1"⟩, ⟨"f2"⟩], [⟨"f3"⟩]].map .ok) 0 = (.ok (some []), 0)
    ∧ pkg_get_tweets (User_init "alice" apiSample sampleRec)
          ([[⟨"t1"⟩]].map .ok) 0 = (.ok (some []), 0) :=
  pagination_min_limit (User_init "alice" apiSample sampleRec) rfl
    [[⟨"f1"⟩, ⟨"f2"⟩], [⟨"f3"⟩]] [[⟨"t1"⟩]] 2 1

/-- Claim C2: on a protected account, each of `get_followers`, `get_followees`
and `get_tweets` (package variant) returns `None` — which is distinct from an
empty sequence — and issues zero page-fetch requests, never reaching the
paginator. -/
theorem protected_gate_absence (p : PUser) (hp : p.is_protected = true)
    (usrc fsrc : List (Except PyErr (List Follower)))
    (tsrc : List (Except PyErr (List Tweet))) (l1 l2 l3 : Nat) :
    pkg_get_followers p usrc l1 = (.ok none, 0)
    ∧ pkg_get_followees p fsrc l2 = (.ok none, 0)
    ∧ pkg_get_tweets p tsrc l3 = (.ok none, 0)
    ∧ (.ok (none : Option (List String)) : Except PyErr (Option (List String)))
        ≠ .ok (some []) := by
  refine ⟨?_, ?_, ?_, by simp⟩ <;>
    simp [pkg_get_followers, pkg_get_followees, pkg_get_tweets, hp]

/-- Claim C2 witness: the protected sample account, arbitrary sources. -/
theorem protected_gate_absence_witness :
    pkg_get_followers (User_init "carol" apiSample protectedRec)
        [.ok [⟨"f1"⟩]] 7 = (.ok none, 0)
    ∧ pkg_get_followees (User_init "carol" apiSample protectedRec)
        [.error .transportError] 7 = (.ok none, 0)
    ∧ pkg_get_tweets (User_init "carol" apiSample protectedRec)
        [.ok [⟨"t1"⟩]] 7 = (.ok none, 0)
    ∧ (.ok (none : Option (List String)) : Except PyErr (Option (List String)))
        ≠ .ok (some []) :=
  protected_gate_absence (User_init "carol" apiSample protectedRec) rfl
    [.ok [⟨"f1"⟩]] [.error .transportError] [.ok [⟨"t1"⟩]] 7 7 7

/-- Claim C4: if a page fetch fails during pagination (here: after the ok
pages `ps`, which the limit has not yet been reached on), the whole collection
aborts with the transport error and no partial sequence is returned — the
items of the earlier pages are discarded. -/
theorem page_failure_aborts (p : PUser) (hp : p.is_protected = false)
    (ps : List (List Follower)) (tps : List (List Tweet))
    (rest : List (Except PyErr (List Follower)))
    (trest : List (Except PyErr (List Tweet))) (limit : Nat)
    (h1 : ps.flatten.length < limit) (h2 : tps.flatten.length < limit) :
    (pkg_get_followers p (ps.map .ok ++ .error .transportError :: rest) limit).1
        = .error .transportError
    ∧ (pkg_get_tweets p (tps.map .ok ++ .error .transportError :: trest) limit).1
        = .error .transportError := by
  constructor
  · simp only [pkg_get_followers, hp, Bool.false_eq_true, if_false]
    rw [collect_reaches_error ps .transportError rest limit h1]
    rfl
  · simp only [pkg_get_tweets, hp, Bool.false_eq_true, if_false]
    rw [collect_reaches_error tps .transportError trest limit h2]
    rfl

/-- Claim C4 witness: one successful page of one follower, then a failing
page, with `limit = 3`: the collection yields the transport error, not the
partial one-element list. -/
theorem page_failure_aborts_witness :
    (pkg_get_followers (User_init "alice" apiSample sampleRec)
        ([[⟨"f1"⟩]].map .ok ++ .error .transportError :: []) 3).1
        = .error .transportError
    ∧ (pkg_get_tweets (User_init "alice" apiSample sampleRec)
        ([[⟨"t1"⟩]].map .ok ++ .error .transportError :: []) 3).1
        = .error .transportError :=
  page_failure_aborts (User_init "alice" apiSample sampleRec) rfl
    [[⟨"f1"⟩]] [[⟨"t1"⟩]] [] [] 3 (by decide) (by decide)

/-- Claim C3 counterexample: (a) requesting the extra field `id` — present on
every snapshot — does not append it after the default keys: the `OrderedDict`
updates the existing `id` entry in place, so the key sequence is not the
defaults followed by the requested extras; (b) on an unprotected snapshot with
no `status` attribute the call raises `AttributeError` instead of returning a
mapping at all. -/
theorem get_profile_info_claimed_order_cex :
    gpiKeys (pkg_get_profile_info (User_init "alice" apiSample sampleRec) ["id"])
        ≠ claimed_key_order sampleRec false ["id"]
    ∧ (pkg_get_profile_info (User_init "bob" apiSample noStatusRec) []).1
        = .error .attributeError := by
  constructor
  · decide
  · rfl

/-- Claim C3 (amended): for a profile whose default fields can be assembled
(protected, or the snapshot carries a `status`), `get_profile_info` returns a
mapping whose keys are the defaults — `id`, `screen_name`, `name`, `location`,
`followers_count`, then `status` only if not protected — followed by the
requested extra fields present on the snapshot, in caller-supplied order, with
repeats collapsed: an extra that repeats a default key or an earlier extra
updates the existing entry in place instead of appending.  Extras absent from
the snapshot are exactly the warned names, in request order, and never an
error. -/
theorem get_profile_info_keys_amended (p : PUser) (args : List String)
    (h : p.is_protected = true ∨ p.user.status.isSome = true) :
    ∃ d : OD, (pkg_get_profile_info p args).1 = .ok (d, absentArgs p.user args)
      ∧ odKeys d = defaultKeys p.is_protected
          ++ freshExtras p.user (defaultKeys p.is_protected) args := by
  by_cases hp : p.is_protected = true
  · refine ⟨(processArgs p.user args (profileBase p.user) []).1, ?_, ?_⟩
    · have hw := (processArgs_spec p.user args (profileBase p.user) []).2
      simp only [List.nil_append] at hw
      simp only [pkg_get_profile_info, hp, if_true, ← hw]
    · have hk := (processArgs_spec p.user args (profileBase p.user) []).1
      rw [hk, odKeys_profileBase]
      simp [defaultKeys, hp]
  · have hs : p.user.status.isSome = true := by
      rcases h with h1 | h2
      · exact absurd h1 hp
      · exact h2
    obtain ⟨st, hst⟩ := Option.isSome_iff_exists.mp hs
    refine ⟨(processArgs p.user args
      (odInsert (profileBase p.user) "status" (.str st.text)) []).1, ?_, ?_⟩
    · have hw := (processArgs_spec p.user args
        (odInsert (profileBase p.user) "status" (.str st.text)) []).2
      simp only [List.nil_append] at hw
      rw [← hw]
      simp [pkg_get_profile_info, hp, hst]
    · have hk := (processArgs_spec p.user args
        (odInsert (profileBase p.user) "status" (.str st.text)) []).1
      rw [hk, odKeys_profileBase_status]
      simp [defaultKeys, hp]

/-- Claim C3 witness: the public sample account with extras
`["verified", "bogus"]`: `verified` exists on the snapshot and is appended
after the defaults, `bogus` is absent and is the one warned name. -/
theorem get_profile_info_keys_amended_witness :
    ∃ d : OD,
      (pkg_get_profile_info (User_init "alice" apiSample sampleRec)
          ["verified", "bogus"]).1
        = .ok (d, absentArgs sampleRec ["verified", "bogus"])
      ∧ odKeys d = defaultKeys false
          ++ freshExtras sampleRec (defaultKeys false) ["verified", "bogus"] :=
  get_profile_info_keys_amended (User_init "alice" apiSample sampleRec)
    ["verified", "bogus"] (Or.inr rfl)

/-- Claim C5 counterexample: `connect` stores the api handle before looking at
the verification outcome, and `get_user` never checks it; after a `connect`
whose credential verification returned `False` (so no successful connect has
occurred), `get_user` issues the identity request and constructs a `User` —
it does not fail, let alone with a not-authenticated error. -/
theorem get_user_after_failed_connect_cex :
    (Crawler.connect crawler0 apiSample false).2 = false
    ∧ Crawler.get_user (Crawler.connect crawler0 apiSample false).1 "bob"
        = (.ok (User_init "bob" apiSample sampleRec), 1) :=
  ⟨rfl, rfl⟩

/-- Claim C5 (amended): calling `get_user` on a `Crawler` on which `connect`
has never been called fails immediately — the api handle is still `None`, so
the attribute access raises — with zero requests issued and no `User`
constructed.  After an unsuccessful `connect` the handle is set anyway and
`get_user` proceeds to issue the identity lookup. -/
theorem get_user_unconnected_fails (c : Crawler) (uid : String)
    (h : c.api = none) :
    Crawler.get_user c uid = (.error .attributeError, 0) := by
  simp [Crawler.get_user, h]

/-- Claim C5 witness: the freshly constructed crawler. -/
theorem get_user_unconnected_fails_witness :
    Crawler.get_user crawler0 "bob" = (.error .attributeError, 0) :=
  get_user_unconnected_fails crawler0 "bob" rfl

/-- Claim C6: on an unprotected profile whose snapshot carries no most-recent
post, `get_profile_info` does not complete without error — the unconditional
`self.user.status.text` read raises `AttributeError` — while on a snapshot
with a post the text is included under `status`, and on a protected profile
the `status` key is omitted. -/
theorem missing_status_attribute_error :
    pkg_get_profile_info (User_init "bob" apiSample noStatusRec) []
        = (.error .attributeError, 0)
    ∧ statusEntry (pkg_get_profile_info (User_init "alice" apiSample sampleRec) [])
        = some (.str "hello")
    ∧ statusEntry (pkg_get_profile_info (User_init "carol" apiSample protectedRec) [])
        = none :=
  ⟨rfl, rfl, rfl⟩

-- Helper lemmas for the snapshot-only claim.

theorem pkg_get_profile_info_count (p : PUser) (args : List String) :
    (pkg_get_profile_info p args).2 = 0 := by
  by_cases hp : p.is_protected = true
  · simp [pkg_get_profile_info, hp]
  · cases hst : p.user.status <;> simp [pkg_get_profile_info, hp, hst]

theorem pkg_get_profile_info_congr (p q : PUser) (args : List String)
    (h1 : q.user = p.user) (h2 : q.is_protected = p.is_protected) :
    pkg_get_profile_info q args = pkg_get_profile_info p args := by
  unfold pkg_get_profile_info
  rw [h1, h2]

/-- Claim C7 counterexample: in the `src/crawler.py` variant, a single
`get_profile_info` call issues one request to the remote API client — the
record is re-fetched per call, not read from a construction snapshot. -/
theorem flat_profile_requests_cex :
    (flat_get_profile_info apiSample "bob" []).2 = 1 ∧ (1 : Nat) ≠ 0 :=
  ⟨rfl, by decide⟩

/-- Claim C7 (amended): in the package variant (`src/crawler/crawler.py`),
any sequence of `get_profile_info` calls issues zero requests to the remote
API client, the results are those of the individual snapshot-only calls, and
they depend only on the construction snapshot (the stored record and
protected flag) — two `User`s agreeing on the snapshot give identical call
sequences regardless of api handle or user id.  The `src/crawler.py` variant
instead issues one identity request per call. -/
theorem get_profile_info_snapshot_only (p q : PUser) (argss : List (List String))
    (api : Api) (uid : String) (args1 : List String)
    (h1 : q.user = p.user) (h2 : q.is_protected = p.is_protected) :
    (pkg_gpi_callSeq p argss).2 = 0
    ∧ pkg_gpi_callSeq q argss = pkg_gpi_callSeq p argss
    ∧ (pkg_gpi_callSeq p argss).1
        = argss.map (fun a => (pkg_get_profile_info p a).1)
    ∧ (flat_get_profile_info api uid args1).2 = 1 := by
  refine ⟨?_, ?_, ?_, ?_⟩
  · induction argss with
    | nil => rfl
    | cons a rest ih => simp [pkg_gpi_callSeq, pkg_get_profile_info_count, ih]
  · induction argss with
    | nil => rfl
    | cons a rest ih =>
        simp [pkg_gpi_callSeq, ih, pkg_get_profile_info_congr p q a h1 h2]
  · induction argss with
    | nil => rfl
    | cons a rest ih => simp [pkg_gpi_callSeq, ih]
  · cases hg : api.get_user uid with
    | error e => simp [flat_get_profile_info, hg]
    | ok u => cases hs : u.status <;> simp [flat_get_profile_info, hg, hs]

/-- Claim C7 witness: two `User`s sharing the sample snapshot but holding
different api handles and ids, over a two-call sequence. -/
theorem get_profile_info_snapshot_only_witness :
    (pkg_gpi_callSeq (User_init "alice" apiSample sampleRec) [["id"], []]).2 = 0
    ∧ pkg_gpi_callSeq ⟨"other", sampleRec, apiDown, false⟩ [["id"], []]
        = pkg_gpi_callSeq (User_init "alice" apiSample sampleRec) [["id"], []]
    ∧ (pkg_gpi_callSeq (User_init "alice" apiSample sampleRec) [["id"], []]).1
        = [["id"], []].map (fun a =>
            (pkg_get_profile_info (User_init "alice" apiSample sampleRec) a).1)
    ∧ (flat_get_profile_info apiSample "x" []).2 = 1 :=
  get_profile_info_snapshot_only (User_init "alice" apiSample sampleRec)
    ⟨"other", sampleRec, apiDown, false⟩ [["id"], []] apiSample "x" [] rfl rfl

/-- Claim C8: the presenter renders the private-account message whenever the
accessor result is falsy — so an empty returned list is rendered as a private
account, not as empty data — and the tweets section is gated on the
`followers` variable: with followers `[]`, followees `["ada"]` and tweets
`["hi"]` from a public account, the followers and tweets sections both print
the private-account message and the tweet is never printed.  (With all three
accessors returning `None`, the messages are the intended ones.) -/
theorem print_info_private_message_bug :
    print_info_sections (some []) (some ["ada"]) (some ["hi"])
      = (.ok ["Account is private and followers cannot be crawled."],
         .ok ["ada"],
         .ok ["Account is private and tweets cannot be crawled."])
    ∧ print_info_sections none none none
      = (.ok ["Account is private and followers cannot be crawled."],
         .ok ["Account is private and followed accounts cannot be crawled."],
         .ok ["Account is private and tweets cannot be crawled."]) :=
  ⟨rfl, rfl⟩

/-- Claim C9: the `src/crawler.py` accessors perform no visibility check:
on any source they paginate and return an `ok` list of at most `limit` items
— never the absence value — while the gated package variant returns `None`
for a protected account; the two results differ. -/
theorem flat_variant_ungated (upages : List (List Follower))
    (tpages : List (List Tweet)) (limit : Nat) (p : PUser)
    (hp : p.is_protected = true) :
    (flat_get_followers (upages.map .ok) limit).1
        = .ok (some ((upages.flatten.map Follower.screen_name).take limit))
    ∧ (flat_get_followees (upages.map .ok) limit).1
        = .ok (some ((upages.flatten.map Follower.screen_name).take limit))
    ∧ (flat_get_tweets (tpages.map .ok) limit).1
        = .ok (some ((tpages.flatten.map Tweet.text).take limit))
    ∧ ((upages.flatten.map Follower.screen_name).take limit).length ≤ limit
    ∧ (pkg_get_followers p (upages.map .ok) limit).1 = .ok none
    ∧ (.ok (some ((upages.flatten.map Follower.screen_name).take limit))
        : Except PyErr (Option (List String))) ≠ .ok none := by
  refine ⟨accessor_ok_fst _ _ _, accessor_ok_fst _ _ _, accessor_ok_fst _ _ _,
    ?_, ?_, by simp⟩
  · exact List.length_take_le _ _
  · simp [pkg_get_followers, hp]

/-- Claim C9 witness: a protected account with one follower page and one
tweet page, `limit = 1`. -/
theorem flat_variant_ungated_witness :
    (flat_get_followers ([[⟨"f1"⟩]].map .ok) 1).1
        = .ok (some (([[(⟨"f1"⟩ : Follower)]].flatten.map
            Follower.screen_name).take 1))
    ∧ (flat_get_followees ([[⟨"f1"⟩]].map .ok) 1).1
        = .ok (some (([[(⟨"f1"⟩ : Follower)]].flatten.map
            Follower.screen_name).take 1))
    ∧ (flat_get_tweets ([[⟨"t1"⟩]].map .ok) 1).1
        = .ok (some (([[(⟨"t1"⟩ : Tweet)]].flatten.map Tweet.text).take 1))
    ∧ (([[(⟨"f1"⟩ : Follower)]].flatten.map Follower.screen_name).take 1).length
        ≤ 1
    ∧ (pkg_get_followers (User_init "carol" apiSample protectedRec)
        ([[⟨"f1"⟩]].map .ok) 1).1 = .ok none
    ∧ (.ok (some (([[(⟨"f1"⟩ : Follower)]].flatten.map
          Follower.screen_name).take 1))
        : Except PyErr (Option (List String))) ≠ .ok none :=
  flat_variant_ungated [[⟨"f1"⟩]] [[⟨"t1"⟩]] 1
    (User_init "carol" apiSample protectedRec) rfl

/-- Claim C10: for two snapshots identical except for the protected flag,
`get_profile_info` with `status` among the extra fields yields mappings that
agree on the `status` entry — both hold the snapshot's status object — so the
visibility gate suppresses only the default status field and a protected
account's status is recoverable by requesting it as an extra field. -/
theorem status_extra_field_leak (uid1 uid2 : String) (api1 api2 : Api)
    (u : UserRecord) (st : Status) (args : List String)
    (hs : u.status = some st) (ha : "status" ∈ args) :
    statusEntry (pkg_get_profile_info
        ⟨uid1, { u with is_protected := true }, api1, true⟩ args)
      = some (.status st)
    ∧ statusEntry (pkg_get_profile_info
        ⟨uid2, { u with is_protected := false }, api2, false⟩ args)
      = some (.status st)
    ∧ statusEntry (pkg_get_profile_info
        ⟨uid1, { u with is_protected := true }, api1, true⟩ args)
      = statusEntry (pkg_get_profile_info
        ⟨uid2, { u with is_protected := false }, api2, false⟩ args) := by
  have hattr1 : attrValue { u with is_protected := true } "status"
      = some (.status st) := by simp [attrValue, hs]
  have hattr2 : attrValue { u with is_protected := false } "status"
      = some (.status st) := by simp [attrValue, hs]
  have hA : statusEntry (pkg_get_profile_info
      ⟨uid1, { u with is_protected := true }, api1, true⟩ args)
      = some (.status st) := by
    have := processArgs_lookup_mem { u with is_protected := true } "status"
      (.status st) hattr1 args (profileBase { u with is_protected := true }) [] ha
    simpa [statusEntry, pkg_get_profile_info] using this
  have hB : statusEntry (pkg_get_profile_info
      ⟨uid2, { u with is_protected := false }, api2, false⟩ args)
      = some (.status st) := by
    have := processArgs_lookup_mem { u with is_protected := false } "status"
      (.status st) hattr2 args
      (odInsert (profileBase { u with is_protected := false })
        "status" (.str st.text)) [] ha
    simpa [statusEntry, pkg_get_profile_info, hs] using this
  exact ⟨hA, hB, hA.trans hB.symm⟩

/-- Claim C10 witness: the sample snapshot with the flag flipped both ways,
`status` requested as the only extra field. -/
theorem status_extra_field_leak_witness :
    statusEntry (pkg_get_profile_info
        ⟨"u1", { sampleRec with is_protected := true }, apiSample, true⟩
        ["status"])
      = some (.status ⟨"hello"⟩)
    ∧ statusEntry (pkg_get_profile_info
        ⟨"u2", { sampleRec with is_protected := false }, apiDown, false⟩
        ["status"])
      = some (.status ⟨"hello"⟩)
    ∧ statusEntry (pkg_get_profile_info
        ⟨"u1", { sampleRec with is_protected := true }, apiSample, true⟩
        ["status"])
      = statusEntry (pkg_get_profile_info
        ⟨"u2", { sampleRec with is_protected := false }, apiDown, false⟩
        ["status"]) :=
  status_extra_field_leak "u1" "u2" apiSample apiDown sampleRec ⟨"hello"⟩
    ["status"] rfl (by decide)
